import Mathlib

/-!
A shallow embedding of the fbdev video backend (src/src/uterm_fbdev_video.c)
of the kmscon repository, together with theorems settling the frozen claims
about its specification.

Modelling conventions:
* machine integers are Nat; the C code's `__u32` sums and `uint64_t` products
  in the refresh-rate computation are taken modulo 2^32 / 2^64 exactly where
  the C types force a reduction;
* the frame-buffer device (ioctl get/put of screen parameters, blanking,
  mmap) is an external collaborator; it is modelled as a record of response
  functions over an abstract device-state type, threaded through every
  operation, so theorems quantify over every possible device behaviour;
* fallible operations return their C error code (0, -EINVAL = -22,
  -EFAULT = -14, -ENOMEM = -12) together with the post display state and
  post device state.
-/

/-- FB_VISUAL_TRUECOLOR from linux/fb.h. -/
def FB_VISUAL_TRUECOLOR : Nat := 2

/-- FB_ACTIVATE_NOW | FB_ACTIVATE_FORCE from linux/fb.h. -/
def ACT_NOW_FORCE : Nat := 128

/-- FB_ACTIVATE_VBL from linux/fb.h. -/
def ACT_VBL : Nat := 16

/-- FB_BLANK_UNBLANK from linux/fb.h. -/
def FB_BLANK_UNBLANK : Nat := 0

/-- FB_BLANK_NORMAL from linux/fb.h. -/
def FB_BLANK_NORMAL : Nat := 1

/-- FB_BLANK_POWERDOWN from linux/fb.h. -/
def FB_BLANK_POWERDOWN : Nat := 4

/-- 2^32, the modulus of C unsigned 32-bit arithmetic. -/
def U32 : Nat := 4294967296

/-- 2^64, the modulus of C unsigned 64-bit arithmetic. -/
def U64 : Nat := 18446744073709551616

/-- struct fb_bitfield: offset and length of one color channel. -/
structure Bitf where
  offset : Nat
  length : Nat
deriving Repr, DecidableEq

/-- struct fb_var_screeninfo: the variable screen parameters the backend
reads and writes (only the fields the source touches). -/
structure VarScreeninfo where
  xres : Nat
  yres : Nat
  xres_virtual : Nat
  yres_virtual : Nat
  xoffset : Nat
  yoffset : Nat
  bits_per_pixel : Nat
  red : Bitf
  green : Bitf
  blue : Bitf
  left_margin : Nat
  right_margin : Nat
  upper_margin : Nat
  lower_margin : Nat
  pixclock : Nat
  activate : Nat
deriving Repr, DecidableEq

/-- struct fb_fix_screeninfo: the fixed screen parameters the backend reads.
The device identification string is only ever compared against "udlfb"
(behind a short-circuiting `true ||`), so it is modelled as that one
comparison's result. -/
structure FixScreeninfo where
  visual : Nat
  line_length : Nat
  id_udlfb : Bool
deriving Repr, DecidableEq

/-- Rate Model, first step (display_activate_force, lines 247-249):
quot = (upper_margin + lower_margin + yres) * (left_margin + right_margin
+ xres) * pixclock. The sums are C unsigned-int sums (mod 2^32); quot is a
uint64_t, so the running product reduces mod 2^64. -/
def rate_quot (v : VarScreeninfo) : Nat :=
  let vsum := (v.upper_margin + v.lower_margin + v.yres) % U32
  let hsum := (v.left_margin + v.right_margin + v.xres) % U32
  let q1 := (vsum * hsum) % U64
  (q1 * (v.pixclock % U32)) % U64

/-- Rate Model (display_activate_force, lines 246-264): refresh rate in
milli-Hertz, 10^15 / quot, falling back to 60000 when quot is zero, then
clamped into [1, 200000]. The rate field's width is taken from the spec
("unsigned 64-bit arithmetic"); its header declaration is outside src/. -/
def fbdev_rate (v : VarScreeninfo) : Nat :=
  let quot := rate_quot v
  let r := if quot ≠ 0 then 1000000000000000 / quot else 60 * 1000
  if r = 0 then 1
  else if r > 200000 then 200000
  else r

/-- Vblank pacing interval in milliseconds (line 266): val = 1000000 / rate. -/
def vblank_val (v : VarScreeninfo) : Nat := 1000000 / fbdev_rate v

inductive Dpms where
  | on
  | standby
  | suspend
  | off
  | unknown
deriving Repr, DecidableEq

structure ModeRec where
  width : Nat
  height : Nat
deriving Repr, DecidableEq

structure FbdevDisplay where
  finfo : FixScreeninfo
  vinfo : VarScreeninfo
  rate : Nat
  map : Bool
  len : Nat
  stride : Nat
  xres : Nat
  yres : Nat
  bufid : Nat
  Bpp : Nat
  off_r : Nat
  len_r : Nat
  off_g : Nat
  len_g : Nat
  off_b : Nat
  len_b : Nat
  dither_r : Nat
  dither_g : Nat
  dither_b : Nat
  xrgb32 : Bool
deriving Repr, DecidableEq

structure DState where
  hasVideo : Bool
  awake : Bool
  online : Bool
  dbuf : Bool
  dithering : Bool
  dpms : Dpms
  currentMode : Option ModeRec
  modes : List ModeRec
  vblankMs : Nat
  timerArmed : Bool
  fb : FbdevDisplay
deriving Repr, DecidableEq

structure Dev (σ : Type) where
  get : σ → Option (FixScreeninfo × VarScreeninfo)
  put : σ → VarScreeninfo → Option σ
  mmapOk : σ → Nat → Bool
  blank : σ → Nat → Option σ
  modeAllocOk : σ → Bool

def setFbInfo (s : DState) (f : FixScreeninfo) (v : VarScreeninfo) : DState :=
  { s with fb := { s.fb with finfo := f, vinfo := v } }

def depth_loop {σ : Type} (dev : Dev σ) :
    List Nat → σ → FixScreeninfo → VarScreeninfo →
    Bool × σ × FixScreeninfo × VarScreeninfo
  | [], d, f, v => (true, d, f, v)
  | dep :: rest, d, f, v =>
    let v1 : VarScreeninfo := { v with bits_per_pixel := dep, activate := ACT_NOW_FORCE }
    match dev.put d v1 with
    | none => depth_loop dev rest d f v1
    | some d1 =>
      match dev.get d1 with
      | none => (false, d1, f, v1)
      | some (f2, v2) =>
        if f2.visual = FB_VISUAL_TRUECOLOR then (true, d1, f2, v2)
        else depth_loop dev rest d1 f2 v2

def finish_mode {σ : Type} (dev : Dev σ) (d : σ) (s2 : DState)
    (fb1 : FbdevDisplay) : Int × DState × σ :=
  match s2.currentMode with
  | some _ => (0, { s2 with online := true }, d)
  | none =>
    if dev.modeAllocOk d = false then
      (-12, { s2 with fb := { fb1 with map := false } }, d)
    else
      let m : ModeRec := { width := 0, height := 0 }
      (0, { s2 with modes := m :: s2.modes, currentMode := some m, online := true }, d)

def activate_finish {σ : Type} (dev : Dev σ) (d : σ) (s : DState)
    (f : FixScreeninfo) (v : VarScreeninfo) : Int × DState × σ :=
  if v.bits_per_pixel ≠ 32 ∧ v.bits_per_pixel ≠ 16 then (-14, s, d)
  else if f.visual ≠ FB_VISUAL_TRUECOLOR then (-14, s, d)
  else if v.red.length > 8 ∨ v.green.length > 8 ∨ v.blue.length > 8 then (-14, s, d)
  else
    let rate := fbdev_rate v
    let s1 : DState := { s with fb := { s.fb with rate := rate }, vblankMs := vblank_val v }
    let len := f.line_length * v.yres * (if s.dbuf then 2 else 1)
    if dev.mmapOk d len = false then (-14, s1, d)
    else
      let fb1 : FbdevDisplay := { s1.fb with
        map := true, xres := v.xres, yres := v.yres, len := len,
        stride := f.line_length, bufid := 0, Bpp := v.bits_per_pixel / 8,
        off_r := v.red.offset, len_r := v.red.length,
        off_g := v.green.offset, len_g := v.green.length,
        off_b := v.blue.offset, len_b := v.blue.length,
        dither_r := 0, dither_g := 0, dither_b := 0,
        xrgb32 := v.red.length == 8 && v.green.length == 8 && v.blue.length == 8 &&
          v.red.offset == 16 && v.green.offset == 8 && v.blue.offset == 0 &&
          v.bits_per_pixel / 8 == 4 }
      let s2 : DState := { s1 with fb := fb1, dithering := true }
      finish_mode dev d s2 fb1

def activate_cont {σ : Type} (dev : Dev σ) (d : σ) (s : DState) : Int × DState × σ :=
  match dev.get d with
  | none => (-14, s, d)
  | some (f, v) =>
    if f.visual ≠ FB_VISUAL_TRUECOLOR ∨ v.bits_per_pixel ≠ 32 then
      match depth_loop dev [32, 16] d f v with
      | (ok, d2, f2, v2) =>
        if ok = false then (-14, setFbInfo s f2 v2, d2)
        else activate_finish dev d2 (setFbInfo s f2 v2) f2 v2
    else activate_finish dev d (setFbInfo s f v) f v

def request_vinfo (v0 : VarScreeninfo) : VarScreeninfo :=
  { v0 with
    xoffset := 0, yoffset := 0, activate := ACT_NOW_FORCE,
    xres_virtual := v0.xres, yres_virtual := v0.yres * 2 }

def dbuf_workaround (f0 : FixScreeninfo) (v1 : VarScreeninfo) : Bool × VarScreeninfo :=
  if true || f0.id_udlfb then (false, { v1 with yres_virtual := v1.yres })
  else (true, v1)

def display_activate_force {σ : Type} (dev : Dev σ) (d : σ) (s : DState)
    (mode : Option ModeRec) (force : Bool) : Int × DState × σ :=
  if s.hasVideo = false ∨ s.awake = false then (-22, s, d)
  else if force = false ∧ s.online = true then (0, s, d)
  else if mode.isSome then (-22, s, d)
  else
    match dev.get d with
    | none => (-14, s, d)
    | some (f0, v0) =>
      let dbv := dbuf_workaround f0 (request_vinfo v0)
      let s0 : DState := { s with dbuf := dbv.1 }
      let v2 := dbv.2
      match dev.put d v2 with
      | some d1 => activate_cont dev d1 (setFbInfo s0 f0 v2)
      | none =>
        let v3 : VarScreeninfo := { v2 with yres_virtual := v2.yres }
        let s3 : DState := { s0 with dbuf := false }
        match dev.put d v3 with
        | none => (-14, setFbInfo s3 f0 v3, d)
        | some d1 => activate_cont dev d1 (setFbInfo s3 f0 v3)

def display_activate {σ : Type} (dev : Dev σ) (d : σ) (s : DState)
    (mode : Option ModeRec) : Int × DState × σ :=
  display_activate_force dev d s mode false

def display_deactivate_force (s : DState) (force : Bool) : DState :=
  if s.hasVideo = false ∨ s.online = false then s
  else
    let s1 : DState := if force then s else { s with modes := [], currentMode := none }
    let s2 : DState := { s1 with fb := { s1.fb with map := false } }
    if force then s2 else { s2 with online := false }

def display_deactivate (s : DState) : DState :=
  display_deactivate_force s false

def dpms_to_blank : Dpms → Option Nat
  | .on => some FB_BLANK_UNBLANK
  | .standby => some FB_BLANK_NORMAL
  | .suspend => some FB_BLANK_NORMAL
  | .off => some FB_BLANK_POWERDOWN
  | .unknown => none

def display_set_dpms {σ : Type} (dev : Dev σ) (d : σ) (s : DState)
    (st : Dpms) : Int × DState × σ :=
  if s.hasVideo = false ∨ s.online = false then (-22, s, d)
  else match dpms_to_blank st with
  | none => (-22, s, d)
  | some lvl =>
    match dev.blank d lvl with
    | none => (-14, s, d)
    | some d1 => (0, { s with dpms := st }, d1)

def display_swap {σ : Type} (dev : Dev σ) (d : σ) (s : DState) : Int × DState × σ :=
  if s.hasVideo = false ∨ s.awake = false then (-22, s, d)
  else if s.online = false then (-22, s, d)
  else if s.dbuf = false then (0, { s with timerArmed := true }, d)
  else
    let v : VarScreeninfo := { s.fb.vinfo with
      activate := ACT_VBL,
      yoffset := if s.fb.bufid = 0 then s.fb.yres else 0 }
    let s1 : DState := { s with fb := { s.fb with vinfo := v } }
    match dev.put d v with
    | none => (-14, s1, d)
    | some d1 =>
      (0, { s1 with fb := { s1.fb with bufid := s.fb.bufid ^^^ 1 }, timerArmed := true }, d1)

def video_sleep (s : DState) : DState :=
  if s.awake = false then s
  else { display_deactivate_force s true with awake := false }

def video_wake_up {σ : Type} (dev : Dev σ) (d : σ) (s : DState) : Int × DState × σ :=
  if s.awake = true then (0, s, d)
  else
    let s1 : DState := { s with awake := true }
    if s1.online = true then
      let res := display_activate_force dev d s1 none true
      if res.1 ≠ 0 then (res.1, { res.2.1 with awake := false }, res.2.2)
      else res
    else (0, s1, d)

def initFinfo : FixScreeninfo := { visual := 0, line_length := 0, id_udlfb := false }

def initVinfo : VarScreeninfo :=
  { xres := 0, yres := 0, xres_virtual := 0, yres_virtual := 0,
    xoffset := 0, yoffset := 0, bits_per_pixel := 0,
    red := { offset := 0, length := 0 }, green := { offset := 0, length := 0 },
    blue := { offset := 0, length := 0 },
    left_margin := 0, right_margin := 0, upper_margin := 0, lower_margin := 0,
    pixclock := 0, activate := 0 }

def initFb : FbdevDisplay :=
  { finfo := initFinfo, vinfo := initVinfo, rate := 0, map := false,
    len := 0, stride := 0, xres := 0, yres := 0, bufid := 0, Bpp := 0,
    off_r := 0, len_r := 0, off_g := 0, len_g := 0, off_b := 0, len_b := 0,
    dither_r := 0, dither_g := 0, dither_b := 0, xrgb32 := false }

def init_state : DState :=
  { hasVideo := true, awake := true, online := false, dbuf := false,
    dithering := false, dpms := Dpms.unknown, currentMode := none,
    modes := [], vblankMs := 0, timerArmed := false, fb := initFb }

def goodF : FixScreeninfo := { visual := 2, line_length := 4096, id_udlfb := false }

def goodV : VarScreeninfo :=
  { xres := 1024, yres := 768, xres_virtual := 1024, yres_virtual := 768,
    xoffset := 0, yoffset := 0, bits_per_pixel := 32,
    red := { offset := 16, length := 8 }, green := { offset := 8, length := 8 },
    blue := { offset := 0, length := 8 },
    left_margin := 100, right_margin := 100, upper_margin := 100,
    lower_margin := 100, pixclock := 10000, activate := 0 }

def goodDev : Dev Unit :=
  { get := fun _ => some (goodF, goodV), put := fun _ _ => some (),
    mmapOk := fun _ _ => true, blank := fun _ _ => some (),
    modeAllocOk := fun _ => true }

def act1 : Int × DState × Unit := display_activate_force goodDev () init_state none false

def s_on : DState := act1.2.1

def s_sleep : DState := video_sleep s_on

def MapSpec {σ : Type} (s : DState) (r : Int × DState × σ) : Prop :=
  r.2.1.hasVideo = s.hasVideo ∧ r.2.1.awake = s.awake ∧
  (r.1 = 0 → r.2.1.fb.map = true ∧ r.2.1.online = true) ∧
  (r.1 ≠ 0 → r.2.1.fb.map = false ∧ r.2.1.online = s.online)

def VInv (s : DState) : Prop :=
  s.hasVideo = true ∧ (s.fb.map = true ↔ (s.online = true ∧ s.awake = true))

inductive Step {σ : Type} (dev : Dev σ) : DState × σ → DState × σ → Prop where
  | act (s : DState) (d : σ) (m : Option ModeRec) :
      Step dev (s, d) (display_activate dev d s m).2
  | deact (s : DState) (d : σ) :
      Step dev (s, d) (display_deactivate s, d)
  | swapStep (s : DState) (d : σ) :
      Step dev (s, d) (display_swap dev d s).2
  | dpmsStep (s : DState) (d : σ) (st : Dpms) :
      Step dev (s, d) (display_set_dpms dev d s st).2
  | sleepStep (s : DState) (d : σ) :
      Step dev (s, d) (video_sleep s, d)
  | wakeStep (s : DState) (d : σ) :
      Step dev (s, d) (video_wake_up dev d s).2

def Reach {σ : Type} (dev : Dev σ) (d0 : σ) : DState × σ → Prop :=
  Relation.ReflTransGen (Step dev) (init_state, d0)

def FormatOk (s : DState) : Prop :=
  (s.fb.vinfo.bits_per_pixel = 32 ∨ s.fb.vinfo.bits_per_pixel = 16) ∧
  s.fb.finfo.visual = FB_VISUAL_TRUECOLOR ∧
  s.fb.len_r ≤ 8 ∧ s.fb.len_g ≤ 8 ∧ s.fb.len_b ≤ 8

def XrgbOk (s : DState) : Prop :=
  s.fb.xrgb32 = true ↔
    (s.fb.len_r = 8 ∧ s.fb.len_g = 8 ∧ s.fb.len_b = 8 ∧
     s.fb.off_r = 16 ∧ s.fb.off_g = 8 ∧ s.fb.off_b = 0 ∧ s.fb.Bpp = 4)

def mode_get_width (m : ModeRec) : Nat := m.width

def mode_get_height (m : ModeRec) : Nat := m.height

theorem fbdev_rate_pos (v : VarScreeninfo) : 1 ≤ fbdev_rate v := by
  simp only [fbdev_rate]
  repeat' split
  all_goals first
    | omega
    | exact Nat.one_le_iff_ne_zero.mpr (by assumption)

theorem fbdev_rate_le (v : VarScreeninfo) : fbdev_rate v ≤ 200000 := by
  simp only [fbdev_rate]
  repeat' split
  all_goals omega

theorem fbdev_rate_of_zero_quot (v : VarScreeninfo) (h : rate_quot v = 0) :
    fbdev_rate v = 60000 := by
  unfold fbdev_rate
  simp [h]

theorem vblank_val_eq_floor (v : VarScreeninfo) :
    vblank_val v = Nat.floor ((1000 : ℚ) / ((fbdev_rate v : ℚ) / 1000)) := by
  have h1 := fbdev_rate_pos v
  have hr : ((fbdev_rate v : ℚ)) ≠ 0 := by
    exact_mod_cast Nat.pos_iff_ne_zero.mp h1
  have h2 : (1000 : ℚ) / ((fbdev_rate v : ℚ) / 1000) =
      ((1000000 : ℕ) : ℚ) / ((fbdev_rate v : ℚ)) := by
    push_cast
    field_simp
    ring
  rw [vblank_val, h2, Nat.floor_div_eq_div]

theorem MapSpec_of_fields {σ : Type} {s t : DState} {r : Int × DState × σ}
    (h1 : t.hasVideo = s.hasVideo) (h2 : t.awake = s.awake)
    (h3 : t.online = s.online) (h : MapSpec t r) : MapSpec s r := by
  unfold MapSpec at *
  rw [h1, h2, h3] at h
  exact h

theorem finish_mode_map {σ : Type} (dev : Dev σ) (d : σ) (s2 : DState)
    (fb1 : FbdevDisplay) (hm1 : s2.fb.map = true) :
    MapSpec s2 (finish_mode dev d s2 fb1) := by
  unfold MapSpec finish_mode
  repeat' split
  all_goals simp_all

theorem activate_finish_map {σ : Type} (dev : Dev σ) (d : σ) (s : DState)
    (f : FixScreeninfo) (v : VarScreeninfo) (hm : s.fb.map = false) :
    MapSpec s (activate_finish dev d s f v) := by
  unfold activate_finish
  dsimp only
  repeat' split
  all_goals first
    | exact ⟨rfl, rfl, by simp, fun _ => ⟨hm, rfl⟩⟩
    | exact MapSpec_of_fields rfl rfl rfl (finish_mode_map _ _ _ _ rfl)

theorem activate_cont_map {σ : Type} (dev : Dev σ) (d : σ) (s : DState)
    (hm : s.fb.map = false) : MapSpec s (activate_cont dev d s) := by
  unfold activate_cont
  cases hg : dev.get d with
  | none => exact ⟨rfl, rfl, by simp, fun _ => ⟨hm, rfl⟩⟩
  | some fv =>
    obtain ⟨f, v⟩ := fv
    dsimp only
    by_cases hc : f.visual ≠ FB_VISUAL_TRUECOLOR ∨ v.bits_per_pixel ≠ 32
    · rw [if_pos hc]
      rcases hdl : depth_loop dev [32, 16] d f v with ⟨ok, rest⟩
      obtain ⟨d2, f2, v2⟩ := rest
      simp only [hdl]
      by_cases hok : ok = false
      · subst hok
        simp only [if_pos rfl]
        exact ⟨by simp [setFbInfo], by simp [setFbInfo], by simp,
          fun _ => ⟨by simpa [setFbInfo] using hm, by simp [setFbInfo]⟩⟩
      · rw [if_neg hok]
        exact MapSpec_of_fields (by simp [setFbInfo]) (by simp [setFbInfo])
          (by simp [setFbInfo])
          (activate_finish_map dev d2 (setFbInfo s f2 v2) f2 v2
            (by simpa [setFbInfo] using hm))
    · rw [if_neg hc]
      exact MapSpec_of_fields (by simp [setFbInfo]) (by simp [setFbInfo])
        (by simp [setFbInfo])
        (activate_finish_map dev d (setFbInfo s f v) f v
          (by simpa [setFbInfo] using hm))

theorem display_activate_force_map {σ : Type} (dev : Dev σ) (d : σ) (s : DState)
    (force : Bool) (hm : s.fb.map = false) (hno : s.online = false ∨ force = true) :
    MapSpec s (display_activate_force dev d s none force) := by
  unfold display_activate_force
  by_cases hg1 : s.hasVideo = false ∨ s.awake = false
  · rw [if_pos hg1]
    exact ⟨rfl, rfl, by simp, fun _ => ⟨hm, rfl⟩⟩
  · rw [if_neg hg1]
    have hg2 : ¬(force = false ∧ s.online = true) := by
      rcases hno with h | h
      · rintro ⟨_, h2⟩
        rw [h] at h2
        exact Bool.false_ne_true h2
      · rintro ⟨h1, _⟩
        rw [h] at h1
        exact absurd h1 (by decide)
    rw [if_neg hg2]
    rw [if_neg (by simp)]
    cases hget : dev.get d with
    | none => exact ⟨rfl, rfl, by simp, fun _ => ⟨hm, rfl⟩⟩
    | some fv =>
      obtain ⟨f0, v0⟩ := fv
      dsimp only
      cases hput : dev.put d (dbuf_workaround f0 (request_vinfo v0)).2 with
      | some d1 =>
        exact MapSpec_of_fields rfl rfl rfl
          (activate_cont_map dev d1 _ (by exact hm))
      | none =>
        dsimp only
        cases hput2 : dev.put d
            { (dbuf_workaround f0 (request_vinfo v0)).2 with
              yres_virtual := (dbuf_workaround f0 (request_vinfo v0)).2.yres } with
        | none =>
          exact ⟨rfl, rfl, by simp, fun _ => ⟨by exact hm, rfl⟩⟩
        | some d1 =>
          exact MapSpec_of_fields rfl rfl rfl
            (activate_cont_map dev d1 _ (by exact hm))

/-- The corrected buffer-mapping invariant: one display always keeps its
video pointer, and the mmap'ed buffer region exists exactly when the
display carries DISPLAY_ONLINE and the system is awake. -/
theorem VInv_init : VInv init_state := by
  unfold VInv
  decide

theorem activate_guard1 {σ : Type} (dev : Dev σ) (d : σ) (s : DState)
    (m : Option ModeRec) (force : Bool) (h : s.hasVideo = false ∨ s.awake = false) :
    display_activate_force dev d s m force = (-22, s, d) := by
  unfold display_activate_force
  rw [if_pos h]

theorem activate_some_mode_eq {σ : Type} (dev : Dev σ) (d : σ) (s : DState)
    (m : Option ModeRec) (force : Bool) (hm : m.isSome = true) :
    (display_activate_force dev d s m force).2.1 = s := by
  unfold display_activate_force
  repeat' split
  all_goals simp_all

theorem VInv_act {σ : Type} (dev : Dev σ) (d : σ) (s : DState) (m : Option ModeRec)
    (h : VInv s) : VInv (display_activate_force dev d s m false).2.1 := by
  cases m with
  | some mm =>
    rw [activate_some_mode_eq dev d s (some mm) false rfl]
    exact h
  | none =>
    by_cases hon : s.online = true
    · unfold display_activate_force
      by_cases hg : s.hasVideo = false ∨ s.awake = false
      · rw [if_pos hg]; exact h
      · rw [if_neg hg, if_pos ⟨rfl, hon⟩]; exact h
    · have hon' : s.online = false := by revert hon; cases s.online <;> simp
      have hmap : s.fb.map = false := by
        rcases h with ⟨hv, hiff⟩
        cases hmp : s.fb.map
        · rfl
        · exact absurd (hiff.mp hmp).1 hon
      obtain ⟨hv', ha', hok, herr⟩ :=
        display_activate_force_map dev d s false hmap (Or.inl hon')
      constructor
      · rw [hv']; exact h.1
      · by_cases hr : (display_activate_force dev d s none false).1 = 0
        · obtain ⟨hm', ho'⟩ := hok hr
          have haw : s.awake = true := by
            cases hA : s.awake
            · rw [activate_guard1 dev d s none false (Or.inr hA)] at hr
              simp at hr
            · rfl
          rw [hm', ho', ha']
          simp [haw]
        · obtain ⟨hm', ho'⟩ := herr hr
          rw [hm', ho', ha']
          simp [hon']

theorem VInv_deact (s : DState) (h : VInv s) : VInv (display_deactivate_force s false) := by
  unfold VInv display_deactivate_force at *
  repeat' split
  all_goals simp_all

theorem VInv_sleep (s : DState) (h : VInv s) : VInv (video_sleep s) := by
  unfold VInv video_sleep display_deactivate_force at *
  repeat' split
  all_goals simp_all

theorem swap_preserves {σ : Type} (dev : Dev σ) (d : σ) (s : DState) :
    (display_swap dev d s).2.1.hasVideo = s.hasVideo ∧
    (display_swap dev d s).2.1.awake = s.awake ∧
    (display_swap dev d s).2.1.online = s.online ∧
    (display_swap dev d s).2.1.fb.map = s.fb.map := by
  unfold display_swap
  repeat' split
  all_goals try simp_all
  all_goals repeat' split
  all_goals simp_all

theorem VInv_swap {σ : Type} (dev : Dev σ) (d : σ) (s : DState) (h : VInv s) :
    VInv (display_swap dev d s).2.1 := by
  obtain ⟨h1, h2, h3, h4⟩ := swap_preserves dev d s
  unfold VInv at *
  rw [h1, h2, h3, h4]
  exact h

theorem dpms_preserves {σ : Type} (dev : Dev σ) (d : σ) (s : DState) (st : Dpms) :
    (display_set_dpms dev d s st).2.1.hasVideo = s.hasVideo ∧
    (display_set_dpms dev d s st).2.1.awake = s.awake ∧
    (display_set_dpms dev d s st).2.1.online = s.online ∧
    (display_set_dpms dev d s st).2.1.fb.map = s.fb.map := by
  unfold display_set_dpms
  repeat' split
  all_goals simp_all

theorem VInv_dpms {σ : Type} (dev : Dev σ) (d : σ) (s : DState) (st : Dpms)
    (h : VInv s) : VInv (display_set_dpms dev d s st).2.1 := by
  obtain ⟨h1, h2, h3, h4⟩ := dpms_preserves dev d s st
  unfold VInv at *
  rw [h1, h2, h3, h4]
  exact h

theorem VInv_wake {σ : Type} (dev : Dev σ) (d : σ) (s : DState) (h : VInv s) :
    VInv (video_wake_up dev d s).2.1 := by
  unfold video_wake_up
  by_cases ha : s.awake = true
  · rw [if_pos ha]; exact h
  · rw [if_neg ha]
    have ha' : s.awake = false := by revert ha; cases s.awake <;> simp
    have hmap : s.fb.map = false := by
      rcases h with ⟨hv, hiff⟩
      cases hmp : s.fb.map
      · rfl
      · exact absurd (hiff.mp hmp).2 (by simp [ha'])
    dsimp only
    by_cases hon : s.online = true
    · rw [if_pos hon]
      obtain ⟨hv', ha2, hok, herr⟩ :=
        display_activate_force_map dev d { s with awake := true } true
          (by exact hmap) (Or.inr rfl)
      by_cases hr : (display_activate_force dev d { s with awake := true } none true).1 = 0
      · rw [if_neg (by simp [hr])]
        constructor
        · rw [hv']; exact h.1
        · obtain ⟨hm', ho'⟩ := hok hr
          rw [hm', ho', ha2]
          simp
      · rw [if_pos hr]
        constructor
        · show (display_activate_force dev d { s with awake := true } none true).2.1.hasVideo = true
          rw [hv']; exact h.1
        · obtain ⟨hm', ho'⟩ := herr hr
          simp [hm']
    · rw [if_neg hon]
      have hon' : s.online = false := by revert hon; cases s.online <;> simp
      constructor
      · exact h.1
      · simp [hmap, hon']

theorem Reach_VInv {σ : Type} (dev : Dev σ) (d0 : σ) (p : DState × σ)
    (h : Reach dev d0 p) : VInv p.1 := by
  induction h with
  | refl => exact VInv_init
  | tail hr hstep ih =>
    cases hstep with
    | act s d m => exact VInv_act dev d s m ih
    | deact s d => exact VInv_deact s ih
    | swapStep s d => exact VInv_swap dev d s ih
    | dpmsStep s d st => exact VInv_dpms dev d s st ih
    | sleepStep s d => exact VInv_sleep s ih
    | wakeStep s d => exact VInv_wake dev d s ih

theorem finish_mode_fb {σ : Type} (dev : Dev σ) (d : σ) (s2 : DState)
    (fb1 : FbdevDisplay) (h : (finish_mode dev d s2 fb1).1 = 0) :
    (finish_mode dev d s2 fb1).2.1.fb = s2.fb := by
  unfold finish_mode at *
  repeat' split at h
  all_goals simp_all

theorem activate_finish_fmt {σ : Type} (dev : Dev σ) (d : σ) (s : DState)
    (f : FixScreeninfo) (v : VarScreeninfo)
    (hv : s.fb.vinfo = v) (hf : s.fb.finfo = f) :
    (activate_finish dev d s f v).1 = 0 →
    FormatOk (activate_finish dev d s f v).2.1 ∧
    XrgbOk (activate_finish dev d s f v).2.1 := by
  unfold FormatOk XrgbOk activate_finish
  dsimp only
  repeat' split
  all_goals intro h
  all_goals try simp at h
  all_goals try simp only [Nat.mul_one]
  all_goals (have hfb := finish_mode_fb _ _ _ _ h
             rw [hfb])
  all_goals push_neg at *
  all_goals dsimp only
  all_goals refine ⟨⟨?_, ?_, by omega, by omega, by omega⟩, ?_⟩
  all_goals try (rw [hv]; tauto)
  all_goals try (rw [hf]; assumption)
  all_goals try (simp; try tauto)

theorem activate_cont_fmt {σ : Type} (dev : Dev σ) (d : σ) (s : DState) :
    (activate_cont dev d s).1 = 0 →
    FormatOk (activate_cont dev d s).2.1 ∧ XrgbOk (activate_cont dev d s).2.1 := by
  unfold activate_cont
  cases hg : dev.get d with
  | none => intro h; simp at h
  | some fv =>
    obtain ⟨f, v⟩ := fv
    dsimp only
    by_cases hc : f.visual ≠ FB_VISUAL_TRUECOLOR ∨ v.bits_per_pixel ≠ 32
    · rw [if_pos hc]
      rcases hdl : depth_loop dev [32, 16] d f v with ⟨ok, rest⟩
      obtain ⟨d2, f2, v2⟩ := rest
      simp only [hdl]
      by_cases hok : ok = false
      · subst hok
        simp only [if_pos rfl]
        intro h
        simp at h
      · rw [if_neg hok]
        exact activate_finish_fmt dev d2 (setFbInfo s f2 v2) f2 v2 rfl rfl
    · rw [if_neg hc]
      exact activate_finish_fmt dev d (setFbInfo s f v) f v rfl rfl

theorem display_activate_force_fmt {σ : Type} (dev : Dev σ) (d : σ) (s : DState)
    (mode : Option ModeRec) (force : Bool)
    (hno : force = true ∨ s.online = false) :
    (display_activate_force dev d s mode force).1 = 0 →
    FormatOk (display_activate_force dev d s mode force).2.1 ∧
    XrgbOk (display_activate_force dev d s mode force).2.1 := by
  unfold display_activate_force
  by_cases hg1 : s.hasVideo = false ∨ s.awake = false
  · rw [if_pos hg1]; intro h; simp at h
  · rw [if_neg hg1]
    have hg2 : ¬(force = false ∧ s.online = true) := by
      rcases hno with h | h
      · rintro ⟨h1, _⟩
        rw [h] at h1
        exact absurd h1 (by decide)
      · rintro ⟨_, h2⟩
        rw [h] at h2
        exact absurd h2 (by decide)
    rw [if_neg hg2]
    cases mode with
    | some m =>
      rw [if_pos (by simp)]
      intro h
      simp at h
    | none =>
      rw [if_neg (by simp)]
      cases hget : dev.get d with
      | none => intro h; simp at h
      | some fv =>
        obtain ⟨f0, v0⟩ := fv
        dsimp only
        cases hput : dev.put d (dbuf_workaround f0 (request_vinfo v0)).2 with
        | some d1 => exact activate_cont_fmt dev d1 _
        | none =>
          dsimp only
          cases hput2 : dev.put d
              { (dbuf_workaround f0 (request_vinfo v0)).2 with
                yres_virtual := (dbuf_workaround f0 (request_vinfo v0)).2.yres } with
          | none => intro h; simp at h
          | some d1 => exact activate_cont_fmt dev d1 _

/-- C1: the claim says that after a successful activate exactly one Mode
exists and its reported width/height equal the buffer resolution. Exactly
one mode does exist, but activating a fresh display on a well-behaved
1024x768 device leaves the mode reporting 0x0, because the source never
runs fbdev_mode = m->data before storing the dimensions (lines 321-322
write through an uninitialized pointer), so mode_get_width/height read the
zeroes left by mode_init. -/
theorem C1_mode_dimensions_bug :
    act1.1 = 0 ∧
    s_on.modes.length = 1 ∧
    s_on.fb.xres = 1024 ∧ s_on.fb.yres = 768 ∧
    s_on.currentMode = some { width := 0, height := 0 } ∧
    s_on.currentMode.map mode_get_width = some 0 ∧
    s_on.currentMode.map mode_get_height = some 0 := by decide

/-- C2: for every timing-register configuration the Rate Model's output
lies in [1, 200000] milli-Hz; a zero triple product yields exactly 60000
milli-Hz; and the derived vblank interval equals 1000 ms divided by the
rate in Hz, rounded down. -/
theorem C2_rate_model (v : VarScreeninfo) :
    (1 ≤ fbdev_rate v ∧ fbdev_rate v ≤ 200000) ∧
    ((v.upper_margin + v.lower_margin + v.yres) *
       (v.left_margin + v.right_margin + v.xres) * v.pixclock = 0 →
      fbdev_rate v = 60000) ∧
    vblank_val v = Nat.floor ((1000 : ℚ) / ((fbdev_rate v : ℚ) / 1000)) := by
  refine ⟨⟨fbdev_rate_pos v, fbdev_rate_le v⟩, ?_, vblank_val_eq_floor v⟩
  intro h
  apply fbdev_rate_of_zero_quot
  rcases Nat.mul_eq_zero.mp h with h1 | h2
  · rcases Nat.mul_eq_zero.mp h1 with ha | hb
    · simp [rate_quot, ha]
    · simp [rate_quot, hb]
  · simp [rate_quot, h2]

/-- C2 witness: the all-zero timing configuration has zero triple product
and rate exactly 60000 milli-Hz, inside [1, 200000]. -/
theorem C2_rate_model_witness :
    fbdev_rate initVinfo = 60000 ∧ 1 ≤ fbdev_rate initVinfo :=
  ⟨(C2_rate_model initVinfo).2.1 (by decide), (C2_rate_model initVinfo).1.1⟩

/-- C3: whenever activate succeeds (other than the already-online no-op),
the negotiated format has 16 or 32 bits per pixel, a true-color visual and
channel lengths at most 8; the checks at lines 222-241 fail the activation
otherwise. -/
theorem C3_format_checks {σ : Type} (dev : Dev σ) (d : σ) (s : DState)
    (mode : Option ModeRec) (force : Bool)
    (hno : force = true ∨ s.online = false)
    (hs : (display_activate_force dev d s mode force).1 = 0) :
    FormatOk (display_activate_force dev d s mode force).2.1 :=
  (display_activate_force_fmt dev d s mode force hno hs).1

/-- C3 witness: the concrete first activation on the well-behaved device
succeeds and its stored format satisfies all checks. -/
theorem C3_format_checks_witness :
    (display_activate_force goodDev () init_state none false).1 = 0 ∧
    FormatOk (display_activate_force goodDev () init_state none false).2.1 :=
  ⟨by decide, C3_format_checks goodDev () init_state none false (Or.inr rfl) (by decide)⟩

/-- C4: after every successful (non-no-op) activate, the xrgb32 fast-path
flag is true exactly when red/green/blue lengths are 8 at offsets 16/8/0
with 4 bytes per pixel. -/
theorem C4_xrgb32_iff {σ : Type} (dev : Dev σ) (d : σ) (s : DState)
    (mode : Option ModeRec) (force : Bool)
    (hno : force = true ∨ s.online = false)
    (hs : (display_activate_force dev d s mode force).1 = 0) :
    XrgbOk (display_activate_force dev d s mode force).2.1 :=
  (display_activate_force_fmt dev d s mode force hno hs).2

/-- C4 witness: the concrete first activation stores the 8/8/8 at 16/8/0,
4-Bpp layout and indeed sets the fast-path flag. -/
theorem C4_xrgb32_iff_witness :
    (display_activate_force goodDev () init_state none false).1 = 0 ∧
    XrgbOk (display_activate_force goodDev () init_state none false).2.1 ∧
    (display_activate_force goodDev () init_state none false).2.1.fb.xrgb32 = true :=
  ⟨by decide, C4_xrgb32_iff goodDev () init_state none false (Or.inr rfl) (by decide),
   by decide⟩

/-- C5: on an attached, online display, deactivate without force drops the
mode list and current mode, releases the mapping and clears the online
flag; deactivate with force releases the mapping but keeps the mode list,
the current mode and the online flag for a later wake-up. -/
theorem C5_deactivate (s : DState) (hv : s.hasVideo = true) (ho : s.online = true) :
    (display_deactivate_force s false).currentMode = none ∧
    (display_deactivate_force s false).modes = [] ∧
    (display_deactivate_force s false).fb.map = false ∧
    (display_deactivate_force s false).online = false ∧
    (display_deactivate_force s true).fb.map = false ∧
    (display_deactivate_force s true).currentMode = s.currentMode ∧
    (display_deactivate_force s true).modes = s.modes ∧
    (display_deactivate_force s true).online = s.online := by
  simp [display_deactivate_force, hv, ho]

/-- C5 witness: deactivating the concretely activated display. -/
theorem C5_deactivate_witness :
    (display_deactivate_force s_on false).online = false ∧
    (display_deactivate_force s_on true).fb.map = false ∧
    (display_deactivate_force s_on true).online = s_on.online :=
  ⟨(C5_deactivate s_on (by decide) (by decide)).2.2.2.1,
   (C5_deactivate s_on (by decide) (by decide)).2.2.2.2.1,
   (C5_deactivate s_on (by decide) (by decide)).2.2.2.2.2.2.2⟩

/-- C6 counterexample: after activating and then sleeping, the system is
asleep and the display still carries DISPLAY_ONLINE; setPower(on) succeeds
(returns 0) instead of returning invalid-argument, because display_set_dpms
never checks the awake flag (line 366 checks only video presence and
DISPLAY_ONLINE). -/
theorem C6_asleep_counterexample :
    s_sleep.awake = false ∧ s_sleep.online = true ∧
    (display_set_dpms goodDev () s_sleep Dpms.on).1 = 0 := by decide

/-- C6 (amended): setPower returns invalid-argument whenever the display is
Offline or detached (the asleep case is not independently rejected); when
the call fails for any reason the recorded power state is unchanged; when
the device accepts the blanking call the requested state is recorded. -/
theorem C6_set_dpms_amended {σ : Type} (dev : Dev σ) (d : σ) (s : DState) (st : Dpms) :
    (s.online = false → display_set_dpms dev d s st = (-22, s, d)) ∧
    ((display_set_dpms dev d s st).1 ≠ 0 → (display_set_dpms dev d s st).2.1 = s) ∧
    (∀ lvl d1, s.hasVideo = true → s.online = true → dpms_to_blank st = some lvl →
      dev.blank d lvl = some d1 →
      display_set_dpms dev d s st = (0, { s with dpms := st }, d1)) := by
  refine ⟨?_, ?_, ?_⟩
  · intro ho
    unfold display_set_dpms
    rw [if_pos (Or.inr ho)]
  · intro h
    unfold display_set_dpms at h ⊢
    by_cases hg : s.hasVideo = false ∨ s.online = false
    · rw [if_pos hg]
    · rw [if_neg hg] at h ⊢
      cases hb : dpms_to_blank st with
      | none => rfl
      | some lvl =>
        rw [hb] at h
        dsimp only at h ⊢
        cases hbl : dev.blank d lvl with
        | none => rfl
        | some d1 =>
          rw [hbl] at h
          simp at h
  · intro lvl d1 hv ho hb hbl
    unfold display_set_dpms
    rw [if_neg (by simp [hv, ho]), hb]
    dsimp only
    rw [hbl]

/-- C6 witness: on the fresh offline display setPower(on) is rejected with
invalid-argument. -/
theorem C6_set_dpms_witness :
    display_set_dpms goodDev () init_state Dpms.on = (-22, init_state, ()) :=
  (C6_set_dpms_amended goodDev () init_state Dpms.on).1 rfl

/-- C7 counterexample: the state reached by activate followed by sleep is
online-flagged with no buffer mapping, so the claimed invariant "mapping
iff Online flag" fails on a reachable state. -/
theorem C7_online_unmapped_counterexample :
    Reach goodDev () (s_sleep, ()) ∧ s_sleep.online = true ∧ s_sleep.fb.map = false := by
  refine ⟨?_, by decide, by decide⟩
  have h1 : Step goodDev (init_state, ()) (s_on, ()) := Step.act init_state () none
  have h2 : Step goodDev (s_on, ()) (s_sleep, ()) := Step.sleepStep s_on ()
  exact Relation.ReflTransGen.tail (Relation.ReflTransGen.single h1) h2

/-- C7 (amended): in every reachable state, the buffer mapping exists if
and only if the display carries DISPLAY_ONLINE and the system is awake. -/
theorem C7_mapping_invariant {σ : Type} (dev : Dev σ) (d0 : σ) (s : DState) (d : σ)
    (h : Reach dev d0 (s, d)) :
    s.fb.map = true ↔ (s.online = true ∧ s.awake = true) :=
  (Reach_VInv dev d0 (s, d) h).2

/-- C7 witness: the invariant instantiated at the initial reachable state. -/
theorem C7_mapping_invariant_witness :
    init_state.fb.map = true ↔ (init_state.online = true ∧ init_state.awake = true) :=
  C7_mapping_invariant goodDev () init_state () Relation.ReflTransGen.refl

/-- C8 counterexample: a display that is still Online-flagged but asleep
(reached by activate then sleep) gets -EINVAL from a further activate, not
the claimed no-op success. -/
theorem C8_asleep_counterexample :
    s_sleep.online = true ∧
    (display_activate_force goodDev () s_sleep none false).1 = -22 ∧
    ((-22 : Int) = 0 → False) := by decide

/-- C8 (amended): on an attached, awake display that is already Online,
activate without force is a no-op success: it returns 0 with the display
state and device state exactly unchanged, for any requested mode. -/
theorem C8_idempotent_amended {σ : Type} (dev : Dev σ) (d : σ) (s : DState)
    (m : Option ModeRec) (hv : s.hasVideo = true) (ha : s.awake = true)
    (ho : s.online = true) :
    display_activate_force dev d s m false = (0, s, d) := by
  unfold display_activate_force
  rw [if_neg (by simp [hv, ha]), if_pos ⟨rfl, ho⟩]

/-- C8 witness: re-activating the concretely activated display changes
nothing. -/
theorem C8_idempotent_witness :
    display_activate_force goodDev () s_on none false = (0, s_on, ()) :=
  C8_idempotent_amended goodDev () s_on none (by decide) (by decide) (by decide)

/-- C9: present on an attached, awake, online display with double-buffering
disabled returns success, arms the vblank pacing timer, and changes nothing
else: in particular the back-buffer index is untouched and the device state
is exactly unchanged (no configuration write is issued). -/
theorem C9_swap_single_buffer {σ : Type} (dev : Dev σ) (d : σ) (s : DState)
    (hv : s.hasVideo = true) (ha : s.awake = true) (ho : s.online = true)
    (hd : s.dbuf = false) :
    display_swap dev d s = (0, { s with timerArmed := true }, d) := by
  unfold display_swap
  rw [if_neg (by simp [hv, ha]), if_neg (by simp [ho]), if_pos hd]

/-- C9 witness: present on the concretely activated display (which has
double-buffering disabled by the unconditional workaround). -/
theorem C9_swap_witness :
    display_swap goodDev () s_on = (0, { s_on with timerArmed := true }, ()) :=
  C9_swap_single_buffer goodDev () s_on (by decide) (by decide) (by decide) (by decide)

/-- C10: with the system awake, a non-null requested mode on an
already-Online display still returns the no-op success 0, because the
already-online check (line 130) precedes the non-null-mode check
(line 137); on an Offline display the same call returns -EINVAL. -/
theorem C10_online_precedes_mode_check {σ : Type} (dev : Dev σ) (d : σ) (s : DState)
    (m : ModeRec) (hv : s.hasVideo = true) (ha : s.awake = true) :
    (s.online = true → display_activate_force dev d s (some m) false = (0, s, d)) ∧
    (s.online = false → (display_activate_force dev d s (some m) false).1 = -22) := by
  constructor
  · intro ho
    unfold display_activate_force
    rw [if_neg (by simp [hv, ha]), if_pos ⟨rfl, ho⟩]
  · intro ho
    unfold display_activate_force
    rw [if_neg (by simp [hv, ha]), if_neg (by simp [ho]), if_pos (by simp)]

/-- C10 witness: requesting an explicit mode on the concretely activated
(online) display is a no-op success, while the same request on the fresh
offline display is -EINVAL. -/
theorem C10_witness :
    display_activate_force goodDev () s_on (some { width := 5, height := 7 }) false
      = (0, s_on, ()) ∧
    (display_activate_force goodDev () init_state (some { width := 5, height := 7 })
      false).1 = -22 :=
  ⟨(C10_online_precedes_mode_check goodDev () s_on { width := 5, height := 7 }
      (by decide) (by decide)).1 (by decide),
   (C10_online_precedes_mode_check goodDev () init_state { width := 5, height := 7 }
      (by decide) (by decide)).2 (by decide)⟩
